import Mathlib

/-! Shallow embedding of the two Streamlit front-end pages of the rag-assistant
repository: `frontend/pages/1_RAG_Assistant.py` and the mo7amAI consultation page.
Pure data flow is modelled directly; Streamlit rendering calls become an explicit
event trace; the outcome of the external Query Service call is a parameter of
type `Except`; the upload loop threads an explicit disk state for its temporary
files. -/

/-- A LangChain document as the pages read it: the page text plus the two
metadata keys the pages access (`metadata["source"]`, `metadata["page"]`);
an absent key is `none`. -/
structure Document where
  page_content : String
  source : Option String
  page : Option Nat
  deriving DecidableEq, Repr

/-- The dict returned by the Query Service as the pages read it: key `result`
(the answer text) and key `source_documents`; `none` models an absent key. -/
structure QueryResult where
  result : String
  source_documents : Option (List Document)
  deriving DecidableEq, Repr

/-- A file offered to `st.file_uploader`: its name and raw bytes. -/
structure UploadedFile where
  name : String
  content : String
  deriving DecidableEq, Repr

/-- The on-disk temporary-file state threaded through the upload loop.
Paths are modelled as `Nat` handles; `counter` is the allocator that models
`tempfile.NamedTemporaryFile`'s fresh-name guarantee. -/
structure DiskState where
  files : List Nat
  counter : Nat
  deriving DecidableEq, Repr

/-- `tempfile.NamedTemporaryFile(delete=False)` (line 117): a fresh path is
created on disk and returned. -/
def mkTemp (d : DiskState) : Nat × DiskState :=
  (d.counter, ⟨d.files ++ [d.counter], d.counter + 1⟩)

/-- `os.remove(path)` (line 131): the path disappears from disk. -/
def removeFile (d : DiskState) (p : Nat) : DiskState :=
  ⟨d.files.filter (fun q => q != p), d.counter⟩

/-- Fresh-name invariant of `tempfile.NamedTemporaryFile`: every path on disk
was allocated below the counter, so the next temporary name is new. -/
def DiskState.wf (d : DiskState) : Prop := ∀ p ∈ d.files, p < d.counter

/-- Line 127: `doc.metadata["source"] = uploaded_file.name`. -/
def tagSource (name : String) (doc : Document) : Document :=
  { doc with source := some name }

/-- One iteration of the upload loop (`1_RAG_Assistant.py` lines 115-131): write
the upload to a fresh temporary file, load it with `PyPDFLoader` (`load`, which
may raise), tag each returned page document with the upload's filename, then
delete the temporary file. When the loader raises, the script aborts with the
disk as it stands: the `os.remove` of line 131 is not reached. -/
def processFile (load : UploadedFile → Except String (List Document))
    (f : UploadedFile) (d : DiskState) :
    Except (String × DiskState) (List Document × DiskState) :=
  match load f with
  | .error e => .error (e, (mkTemp d).2)
  | .ok docs => .ok (docs.map (tagSource f.name), removeFile (mkTemp d).2 (mkTemp d).1)

/-- The whole upload loop (lines 114-131): `session_docs` accumulates the tagged
page documents of each uploaded file in order; an exception aborts the loop. -/
def processUploads (load : UploadedFile → Except String (List Document)) :
    List UploadedFile → DiskState → Except (String × DiskState) (List Document × DiskState)
  | [], d => .ok ([], d)
  | f :: fs, d =>
    match processFile load f d with
    | .error ed => .error ed
    | .ok (docs, d1) =>
      match processUploads load fs d1 with
      | .error ed => .error ed
      | .ok (rest, d2) => .ok (docs ++ rest, d2)

/-- The `session_docs` list the loop builds when every load succeeds and file
`f` parses to the page documents `pages f`: per-file pages tagged with the
file's name, concatenated in upload order. -/
def sessionDocsOf (pages : UploadedFile → List Document) (files : List UploadedFile) :
    List Document :=
  (files.map (fun f => (pages f).map (tagSource f.name))).flatten

/-! ### Helper lemmas about the upload loop -/

theorem processFile_ok_files (load : UploadedFile → Except String (List Document))
    (f : UploadedFile) (d : DiskState) (docs : List Document) (d' : DiskState)
    (hwf : d.wf) (h : processFile load f d = .ok (docs, d')) :
    d'.files = d.files ∧ d'.wf := by
  unfold processFile at h
  cases hl : load f with
  | error e => rw [hl] at h; exact absurd h (by simp)
  | ok ds =>
    rw [hl] at h
    simp only [Except.ok.injEq, Prod.mk.injEq] at h
    obtain ⟨-, hd⟩ := h
    subst hd
    constructor
    · show ((d.files ++ [d.counter]).filter (fun q => q != d.counter)) = d.files
      rw [List.filter_append]
      have h1 : d.files.filter (fun q => q != d.counter) = d.files := by
        rw [List.filter_eq_self]
        intro a ha
        simpa using Nat.ne_of_lt (hwf a ha)
      have h2 : [d.counter].filter (fun q => q != d.counter) = [] := by simp
      rw [h1, h2, List.append_nil]
    · intro p hp
      show p < d.counter + 1
      simp only [removeFile, mkTemp, List.mem_filter] at hp
      have := hp.1
      rw [List.mem_append] at this
      rcases this with h | h
      · exact Nat.lt_succ_of_lt (hwf p h)
      · simp only [List.mem_singleton] at h; omega

theorem processUploads_ok_files (load : UploadedFile → Except String (List Document))
    (files : List UploadedFile) (d : DiskState) (docs : List Document) (d' : DiskState)
    (hwf : d.wf) (h : processUploads load files d = .ok (docs, d')) :
    d'.files = d.files ∧ d'.wf := by
  induction files generalizing d docs with
  | nil =>
    simp only [processUploads, Except.ok.injEq, Prod.mk.injEq] at h
    obtain ⟨-, hd⟩ := h; subst hd; exact ⟨rfl, hwf⟩
  | cons f fs ih =>
    cases hf : processFile load f d with
    | error ed =>
      rw [show processUploads load (f :: fs) d = .error ed by
        simp only [processUploads, hf]] at h
      exact absurd h (by simp)
    | ok p =>
      obtain ⟨ds1, d1⟩ := p
      obtain ⟨h1, hwf1⟩ := processFile_ok_files load f d ds1 d1 hwf hf
      cases hr : processUploads load fs d1 with
      | error ed =>
        rw [show processUploads load (f :: fs) d = .error ed by
          simp only [processUploads, hf, hr]] at h
        exact absurd h (by simp)
      | ok q =>
        obtain ⟨ds2, d2⟩ := q
        rw [show processUploads load (f :: fs) d = .ok (ds1 ++ ds2, d2) by
          simp only [processUploads, hf, hr]] at h
        simp only [Except.ok.injEq, Prod.mk.injEq] at h
        obtain ⟨-, hd⟩ := h
        subst hd
        obtain ⟨h2, hwf2⟩ := ih d1 ds2 hwf1 hr
        exact ⟨h2.trans h1, hwf2⟩

theorem processUploads_all_ok (pages : UploadedFile → List Document)
    (files : List UploadedFile) (d : DiskState) :
    ∃ d', processUploads (fun f => .ok (pages f)) files d =
      .ok (sessionDocsOf pages files, d') := by
  induction files generalizing d with
  | nil => exact ⟨d, by simp [processUploads, sessionDocsOf]⟩
  | cons f fs ih =>
    obtain ⟨d', hd'⟩ := ih (removeFile (mkTemp d).2 (mkTemp d).1)
    refine ⟨d', ?_⟩
    simp only [processUploads, processFile, hd', sessionDocsOf, List.map_cons,
      List.flatten_cons]

/-! ### The UI event trace -/

/-- One Streamlit rendering effect, in emission order. `askCall` marks the
single synchronous Query Service request (`ask_question`,
`run_rag_on_uploaded_docs` or `pipeline.ask`); `spinnerStart`/`spinnerEnd`
bracket the `with st.spinner(...)` scope. -/
inductive UIEvent where
  | spinnerStart
  | spinnerEnd
  | askCall
  | success (s : String)
  | markdown (s : String)
  | info (s : String)
  | error (s : String)
  | code (s : String)
  | expander (title : String) (body : String)
  deriving DecidableEq, Repr

/-- Python truthiness of `result.get("source_documents")`: `None` and the
empty list are falsy, a non-empty list is truthy. -/
def truthyDocs : Option (List Document) → Bool
  | none => false
  | some [] => false
  | some (_ :: _) => true

/-- Rendering of `doc.metadata.get("page", "?")` inside an f-string. -/
def pageLabel : Option Nat → String
  | none => "?"
  | some n => toString n

/-- `traceback.format_exc()`: the diagnostic trace text for the exception
being handled. -/
def traceback (e : String) : String :=
  "Traceback (most recent call last):\n" ++ e

/-- Persistent-path source rendering (`1_RAG_Assistant.py` lines 89-98):
`result.get("source_documents")` truthy renders one expander per document,
else an `st.info` no-sources indicator. Total: no exception can escape. -/
def render_persistent_sources (r : QueryResult) : List UIEvent :=
  if truthyDocs r.source_documents then
    (r.source_documents.getD []).map (fun doc =>
      .expander ("📄 " ++ doc.source.getD "Document inconnu" ++ " (page " ++
          pageLabel doc.page ++ ")")
        (doc.page_content.take 500 ++ "..."))
  else [.info "Aucune source documentaire n\u0027a été retournée."]

/-- Consultation-page source rendering (mo7amAI page lines 143-151):
`if not result.get("source_documents")` renders the `st.info` indicator,
else one expander per document. Total: no exception can escape. -/
def render_consult_sources (r : QueryResult) : List UIEvent :=
  if truthyDocs r.source_documents then
    (r.source_documents.getD []).map (fun doc =>
      .expander (doc.source.getD "Document" ++ " – p." ++ pageLabel doc.page)
        (doc.page_content.take 900 ++ "…"))
  else [.info "Aucune source retournée."]

/-- One item of the ephemeral source loop (line 158):
`doc.metadata['source']` is a strict lookup and raises `KeyError` when the
key is absent. -/
def renderSourceItem (doc : Document) : Except String UIEvent :=
  match doc.source with
  | none => .error "KeyError: source"
  | some s => .ok (.markdown ("- `" ++ s ++ "`"))

/-- The ephemeral source loop (line 157-158): events emitted so far paired
with the exception, if one was raised part-way. -/
def renderLoop : List Document → List UIEvent × Option String
  | [] => ([], none)
  | doc :: docsRest =>
    match renderSourceItem doc with
    | .error e => ([], some e)
    | .ok ev =>
      let rest := renderLoop docsRest
      (ev :: rest.1, rest.2)

/-- Ephemeral-path source rendering (`1_RAG_Assistant.py` lines 156-158): the
`st.markdown` header is emitted first, then `result["source_documents"]` is a
strict lookup — `KeyError` when the key is absent — and each document's source
is rendered by a strict lookup as well. -/
def render_ephemeral_sources (r : QueryResult) : List UIEvent × Option String :=
  match r.source_documents with
  | none => ([.markdown "📎 **Sources :**"], some "KeyError: source_documents")
  | some docs =>
    let rest := renderLoop docs
    (.markdown "📎 **Sources :**" :: rest.1, rest.2)

/-- Python `str.strip()` on the question (mo7amAI page line 129), modelled on
the character list. -/
def pyStrip (s : String) : String :=
  ⟨((s.data.dropWhile Char.isWhitespace).reverse.dropWhile Char.isWhitespace).reverse⟩

/-- Modelled from the spec: `app.rag_engine.ask_question` is not under `src/`.
Per the spec contract, the Query Service fails with `AuthenticationError` when
the api key is invalid or missing and no default credential is configured, and
otherwise returns the service's `QueryResult`. -/
def ask_question (apiKeyOk : Bool) (defaultConfigured : Bool) (r : QueryResult) :
    Except String QueryResult :=
  if apiKeyOk || defaultConfigured then .ok r else .error "AuthenticationError"

/-- Modelled from the spec: `st.file_uploader` (streamlit, not under `src/`)
with a `type` filter admits only the offered files whose name carries one of
the allowed extensions; `1_RAG_Assistant.py` line 107-109 passes
`type=["pdf"]`. -/
def file_uploader (allowed : List String) (offered : List UploadedFile) :
    List UploadedFile :=
  offered.filter (fun f => allowed.any (fun ext => ("." ++ ext).data.isSuffixOf f.name.data))

/-- The uploader as the RAG Assistant page configures it: PDF only. -/
def uploaded_files (offered : List UploadedFile) : List UploadedFile :=
  file_uploader ["pdf"] offered

/-! ### The three query actions, as event-trace producers.

Each takes the button state, the question string, and the outcome of the
external Query Service call (`askResult`), and returns the events the page
emits for that user action. -/

/-- The persistent query action (`1_RAG_Assistant.py` lines 65-102):
gate `st.button(...) and question` (python truthiness of the raw string);
inside the spinner the service is called; on success the answer and the
source column are rendered; any exception is caught and rendered as
`st.error` plus an `st.code` traceback. -/
def page_persistent_query (pressed : Bool) (question : String)
    (askResult : Except String QueryResult) : List UIEvent :=
  if pressed && (question != "") then
    [.spinnerStart, .askCall] ++
    (match askResult with
     | .ok r =>
       [.success "✅ Réponse :", .markdown r.result,
        .markdown "#### 📄 Sources documentaires utilisées"] ++
       render_persistent_sources r
     | .error e =>
       [.error ("❌ Une erreur est survenue : " ++ e), .code (traceback e)]) ++
    [.spinnerEnd]
  else []

/-- The ephemeral query action (`1_RAG_Assistant.py` lines 141-161): gate
`st.button(...) and question`; on success the answer is rendered, then the
source loop runs with strict lookups; any exception — from the service call
or from the strict lookups — is caught and rendered as `st.error` only
(no `st.code` traceback on this path). -/
def page_ephemeral_query (pressed : Bool) (question : String)
    (askResult : Except String QueryResult) : List UIEvent :=
  if pressed && (question != "") then
    [.spinnerStart, .askCall] ++
    (match askResult with
     | .ok r =>
       let rendered := render_ephemeral_sources r
       [.success "🧠 Réponse :", .markdown r.result] ++ rendered.1 ++
       (match rendered.2 with
        | none => []
        | some e => [.error ("❌ Erreur pendant l\u0027exécution : " ++ e)])
     | .error e => [.error ("❌ Erreur pendant l\u0027exécution : " ++ e)]) ++
    [.spinnerEnd]
  else []

/-- The consultation query action (mo7amAI page lines 129-154): gate
`st.button(...) and question.strip()`; on success the answer column and the
source column are rendered; any exception is caught and rendered as
`st.error` plus an `st.code` traceback. -/
def page_consult_query (pressed : Bool) (question : String)
    (askResult : Except String QueryResult) : List UIEvent :=
  if pressed && (pyStrip question != "") then
    [.spinnerStart, .askCall] ++
    (match askResult with
     | .ok r =>
       [.success "## 🧠 Réponse", .markdown r.result, .markdown "## 📑 Sources"] ++
       render_consult_sources r
     | .error e => [.error ("Erreur : " ++ e), .code (traceback e)]) ++
    [.spinnerEnd]
  else []

/-- Is an event the Query Service request marker? -/
def isAsk : UIEvent → Bool
  | .askCall => true
  | _ => false

/-- Number of Query Service requests in a trace. -/
def askCount (evs : List UIEvent) : Nat := evs.countP isAsk

/-- Does a trace contain an `st.info` box (the no-sources indicator on the
paths that have one)? -/
def hasInfo (evs : List UIEvent) : Bool :=
  evs.any (fun e => match e with | .info _ => true | _ => false)

/-- Does a trace contain an `st.code` block (the diagnostic traceback on the
paths that show one)? -/
def hasCode (evs : List UIEvent) : Bool :=
  evs.any (fun e => match e with | .code _ => true | _ => false)

/-- Does a trace contain an `st.error` box? -/
def hasError (evs : List UIEvent) : Bool :=
  evs.any (fun e => match e with | .error _ => true | _ => false)

/-- A trace is spinner-scoped with a single request: it is either empty
(the action did not fire) or one spinner-bracketed run whose only Query
Service request happens right inside the progress indicator. -/
def spinnerScoped (evs : List UIEvent) : Prop :=
  evs = [] ∨ ∃ mid, evs = .spinnerStart :: .askCall :: (mid ++ [.spinnerEnd]) ∧
    askCount mid = 0

/-! ### Helper lemmas about stripping and traces -/

theorem dropWhile_all (p : Char → Bool) (l : List Char) :
    (∀ c ∈ l.dropWhile p, p c = true) ↔ ∀ c ∈ l, p c = true := by
  constructor
  · intro h c hc
    rw [← List.takeWhile_append_dropWhile (p := p) (l := l)] at hc
    rcases List.mem_append.mp hc with h1 | h2
    · exact List.mem_takeWhile_imp h1
    · exact h c h2
  · intro h c hc
    exact h c ((List.dropWhile_sublist (p := p) (l := l)).mem hc)

theorem pyStrip_eq_empty_iff (q : String) :
    pyStrip q = "" ↔ ∀ c ∈ q.data, c.isWhitespace = true := by
  unfold pyStrip
  rw [show ("" : String) = ⟨[]⟩ from rfl]
  rw [String.ext_iff]
  show ((q.data.dropWhile Char.isWhitespace).reverse.dropWhile Char.isWhitespace).reverse
      = [] ↔ _
  rw [List.reverse_eq_nil_iff, List.dropWhile_eq_nil_iff]
  constructor
  · intro h
    rw [← dropWhile_all Char.isWhitespace q.data]
    intro c hc
    exact h c (List.mem_reverse.mpr hc)
  · intro h c hc
    exact (dropWhile_all Char.isWhitespace q.data).mpr h c (List.mem_reverse.mp hc)

theorem pyStrip_ne_empty_iff (q : String) :
    pyStrip q ≠ "" ↔ ∃ c ∈ q.data, c.isWhitespace = false := by
  rw [Ne, pyStrip_eq_empty_iff]
  push_neg
  simp [Bool.not_eq_true]

theorem countP_render_persistent (r : QueryResult) :
    List.countP isAsk (render_persistent_sources r) = 0 := by
  unfold render_persistent_sources
  split
  · rw [List.countP_eq_zero]
    intro e he
    obtain ⟨doc, -, rfl⟩ := List.mem_map.mp he
    simp [isAsk]
  · simp [List.countP_cons, isAsk]

theorem countP_render_consult (r : QueryResult) :
    List.countP isAsk (render_consult_sources r) = 0 := by
  unfold render_consult_sources
  split
  · rw [List.countP_eq_zero]
    intro e he
    obtain ⟨doc, -, rfl⟩ := List.mem_map.mp he
    simp [isAsk]
  · simp [List.countP_cons, isAsk]

theorem countP_renderLoop (docs : List Document) :
    List.countP isAsk (renderLoop docs).1 = 0 := by
  induction docs with
  | nil => rfl
  | cons doc rest ih =>
    unfold renderLoop
    cases h : renderSourceItem doc with
    | error e => simp
    | ok ev =>
      have : ∃ s, ev = .markdown s := by
        unfold renderSourceItem at h
        cases hs : doc.source with
        | none => rw [hs] at h; exact absurd h (by simp)
        | some s =>
          rw [hs] at h
          simp only [Except.ok.injEq] at h
          exact ⟨_, h.symm⟩
      obtain ⟨s, rfl⟩ := this
      simp [List.countP_cons, isAsk, ih]

theorem countP_render_ephemeral (r : QueryResult) :
    List.countP isAsk (render_ephemeral_sources r).1 = 0 := by
  unfold render_ephemeral_sources
  cases r.source_documents with
  | none => simp [List.countP_cons, isAsk]
  | some docs => simp [List.countP_cons, isAsk, countP_renderLoop]

theorem askCount_persistent (pressed : Bool) (q : String) (res : Except String QueryResult) :
    askCount (page_persistent_query pressed q res) =
      if pressed && (q != "") then 1 else 0 := by
  unfold page_persistent_query askCount
  split
  · cases res with
    | ok r =>
      simp [List.countP_append, List.countP_cons, isAsk, countP_render_persistent]
    | error e => simp [List.countP_append, List.countP_cons, isAsk]
  · rfl

theorem askCount_ephemeral (pressed : Bool) (q : String) (res : Except String QueryResult) :
    askCount (page_ephemeral_query pressed q res) =
      if pressed && (q != "") then 1 else 0 := by
  unfold page_ephemeral_query askCount
  split
  · cases res with
    | ok r =>
      cases h2 : (render_ephemeral_sources r).2 with
      | none =>
        simp [h2, List.countP_append, List.countP_cons, isAsk, countP_render_ephemeral]
      | some e =>
        simp [h2, List.countP_append, List.countP_cons, isAsk, countP_render_ephemeral]
    | error e => simp [List.countP_append, List.countP_cons, isAsk]
  · rfl

theorem askCount_consult (pressed : Bool) (q : String) (res : Except String QueryResult) :
    askCount (page_consult_query pressed q res) =
      if pressed && (pyStrip q != "") then 1 else 0 := by
  unfold page_consult_query askCount
  split
  · cases res with
    | ok r =>
      simp [List.countP_append, List.countP_cons, isAsk, countP_render_consult]
    | error e => simp [List.countP_append, List.countP_cons, isAsk]
  · rfl

/-! ### Claim theorems -/

/-- C1 (amended): on the successful path each file's temporary copy is deleted
before the next file is processed — one loop iteration restores the disk — and
after the whole upload loop no temporary file remains; but on the exception
path (PyPDFLoader raising before line 131's `os.remove`) the failing file's
temporary copy remains on disk, as the counterexample shows. -/
theorem upload_temp_cleanup (load : UploadedFile → Except String (List Document)) :
    (∀ f d docs d', d.wf → processFile load f d = .ok (docs, d') →
      d'.files = d.files) ∧
    (∀ files d docs d', d.wf → processUploads load files d = .ok (docs, d') →
      d'.files = d.files) :=
  ⟨fun f d docs d' hwf h => (processFile_ok_files load f d docs d' hwf h).1,
   fun files d docs d' hwf h => (processUploads_ok_files load files d docs d' hwf h).1⟩

/-- C1 witness: a concrete successful one-file upload leaves the initially
empty disk empty. -/
theorem upload_temp_cleanup_witness :
    (DiskState.mk [] 1).files = (DiskState.mk [] 0).files :=
  (upload_temp_cleanup (fun _ => .ok [])).2 [⟨"a.pdf", "x"⟩] ⟨[], 0⟩ [] ⟨[], 1⟩
    (fun p hp => absurd hp (List.not_mem_nil p)) (by rfl)

/-- C1 counterexample: with a loader that raises (a corrupt PDF), the upload
loop exits by exception with the temporary file still on disk — starting from
an empty disk, one failing file leaves its temporary handle behind. -/
theorem upload_temp_leak_on_exception :
    processUploads (fun _ => .error "PdfReadError") [⟨"a.pdf", "x"⟩] ⟨[], 0⟩ =
      .error ("PdfReadError", ⟨[0], 1⟩) ∧ (DiskState.mk [0] 1).files ≠ [] :=
  ⟨rfl, by decide⟩

/-- C2 (amended): for a result whose source_documents list is empty no
rendering path fails; the persistent and consultation paths render the
explicit `st.info` no-sources indicator, while the ephemeral path renders
only the Sources header, with no indicator. -/
theorem empty_sources_rendering (a : String) :
    render_persistent_sources ⟨a, some []⟩ =
      [.info "Aucune source documentaire n'a été retournée."] ∧
    render_consult_sources ⟨a, some []⟩ = [.info "Aucune source retournée."] ∧
    render_ephemeral_sources ⟨a, some []⟩ = ([.markdown "📎 **Sources :**"], none) :=
  ⟨rfl, rfl, rfl⟩

/-- C2 counterexample: on the ephemeral path an empty source_documents list is
rendered without failure but also without any `st.info` box — the explicit
no-sources indicator the other two paths render — so the claim fails for the
ephemeral path. -/
theorem empty_sources_no_indicator_ephemeral :
    (render_ephemeral_sources ⟨"ans", some []⟩).2 = none ∧
    hasInfo (render_ephemeral_sources ⟨"ans", some []⟩).1 = false ∧
    hasInfo (render_persistent_sources ⟨"ans", some []⟩) = true :=
  ⟨rfl, by decide, by decide⟩

/-- C3: when every load succeeds, the upload loop yields exactly the
concatenation of the per-file page documents: their number is the total page
count over all uploaded files, and every produced document's source metadata
is the name of the file it was parsed from. -/
theorem upload_pages_counted_and_tagged (pages : UploadedFile → List Document)
    (files : List UploadedFile) (d : DiskState) :
    (∃ d', processUploads (fun f => .ok (pages f)) files d =
      .ok (sessionDocsOf pages files, d')) ∧
    (sessionDocsOf pages files).length =
      (files.map (fun f => (pages f).length)).sum ∧
    ∀ doc ∈ sessionDocsOf pages files, ∃ f ∈ files, doc.source = some f.name := by
  refine ⟨processUploads_all_ok pages files d, ?_, ?_⟩
  · rw [sessionDocsOf, List.length_flatten, List.map_map]
    apply congrArg List.sum
    apply List.map_congr_left
    intro f hf
    simp
  · intro doc hdoc
    simp only [sessionDocsOf, List.mem_flatten, List.mem_map] at hdoc
    obtain ⟨l, ⟨f, hf, rfl⟩, hdl⟩ := hdoc
    obtain ⟨d0, hd0, rfl⟩ := List.mem_map.mp hdl
    exact ⟨f, hf, rfl⟩

/-- C3 witness: one uploaded file with one page yields that page tagged with
the file's name. -/
theorem upload_pages_counted_and_tagged_witness :
    (∃ d', processUploads (fun _ => Except.ok [⟨"p1", none, some 0⟩])
        [⟨"a.pdf", "x"⟩] ⟨[], 0⟩ =
      .ok (sessionDocsOf (fun _ => [⟨"p1", none, some 0⟩]) [⟨"a.pdf", "x"⟩], d')) ∧
    ∃ f ∈ [(⟨"a.pdf", "x"⟩ : UploadedFile)],
      (Document.mk "p1" (some "a.pdf") (some 0)).source = some f.name :=
  ⟨(upload_pages_counted_and_tagged (fun _ => [⟨"p1", none, some 0⟩])
      [⟨"a.pdf", "x"⟩] ⟨[], 0⟩).1,
   (upload_pages_counted_and_tagged (fun _ => [⟨"p1", none, some 0⟩])
      [⟨"a.pdf", "x"⟩] ⟨[], 0⟩).2.2 _ (by decide)⟩

/-- C4 (amended): every Query Service exception is caught at the call site and
rendered as a user-visible error, with exactly the one request issued (no
retry); the persistent and consultation paths additionally render the
`st.code` diagnostic traceback, while the ephemeral path renders the error
message only. -/
theorem service_errors_surfaced (q e : String) :
    (q ≠ "" → page_persistent_query true q (.error e) =
      [.spinnerStart, .askCall, .error ("❌ Une erreur est survenue : " ++ e),
       .code (traceback e), .spinnerEnd]) ∧
    (pyStrip q ≠ "" → page_consult_query true q (.error e) =
      [.spinnerStart, .askCall, .error ("Erreur : " ++ e),
       .code (traceback e), .spinnerEnd]) ∧
    (q ≠ "" → page_ephemeral_query true q (.error e) =
      [.spinnerStart, .askCall,
       .error ("❌ Erreur pendant l'exécution : " ++ e), .spinnerEnd]) := by
  refine ⟨fun h => ?_, fun h => ?_, fun h => ?_⟩ <;>
    simp [page_persistent_query, page_consult_query, page_ephemeral_query, h]

/-- C4 witness: concrete error traces on the three paths. -/
theorem service_errors_surfaced_witness :
    page_persistent_query true "q" (.error "E") =
      [.spinnerStart, .askCall, .error ("❌ Une erreur est survenue : " ++ "E"),
       .code (traceback "E"), .spinnerEnd] ∧
    page_consult_query true "q" (.error "E") =
      [.spinnerStart, .askCall, .error ("Erreur : " ++ "E"),
       .code (traceback "E"), .spinnerEnd] ∧
    page_ephemeral_query true "q" (.error "E") =
      [.spinnerStart, .askCall,
       .error ("❌ Erreur pendant l'exécution : " ++ "E"), .spinnerEnd] :=
  ⟨(service_errors_surfaced "q" "E").1 (by decide),
   (service_errors_surfaced "q" "E").2.1 (by decide),
   (service_errors_surfaced "q" "E").2.2 (by decide)⟩

/-- C4 counterexample: a Query Service failure on the ephemeral path is
rendered as an error message with no `st.code` diagnostic trace, unlike the
persistent path — so "together with a diagnostic trace ... on every query
path" fails. -/
theorem ephemeral_error_lacks_trace :
    hasError (page_ephemeral_query true "q" (.error "ServiceError")) = true ∧
    hasCode (page_ephemeral_query true "q" (.error "ServiceError")) = false ∧
    hasCode (page_persistent_query true "q" (.error "ServiceError")) = true :=
  ⟨by decide, by decide, by decide⟩

/-- C5: with an invalid api key and no default credential the modelled Query
Service raises AuthenticationError; the persistent page's catch-all handler
renders it as a user-visible error with its traceback — not a silent
failure. -/
theorem auth_error_surfaced (q : String) (r : QueryResult) (h : q ≠ "") :
    page_persistent_query true q (ask_question false false r) =
      [.spinnerStart, .askCall,
       .error ("❌ Une erreur est survenue : " ++ "AuthenticationError"),
       .code (traceback "AuthenticationError"), .spinnerEnd] := by
  simp [page_persistent_query, ask_question, h]

/-- C5 witness: the authentication error trace at a concrete question. -/
theorem auth_error_surfaced_witness :
    page_persistent_query true "q" (ask_question false false ⟨"a", none⟩) =
      [.spinnerStart, .askCall,
       .error ("❌ Une erreur est survenue : " ++ "AuthenticationError"),
       .code (traceback "AuthenticationError"), .spinnerEnd] :=
  auth_error_surfaced "q" ⟨"a", none⟩ (by decide)

/-- C6: the uploader is configured with type=["pdf"], so every document that
enters the session document set was parsed from an offered file whose name
ends in ".pdf" (and is tagged with that file's name). -/
theorem uploader_pdf_only (offered : List UploadedFile)
    (pages : UploadedFile → List Document) (doc : Document)
    (hdoc : doc ∈ sessionDocsOf pages (uploaded_files offered)) :
    ∃ f ∈ offered, ".pdf".data.isSuffixOf f.name.data = true ∧
      doc.source = some f.name := by
  simp only [sessionDocsOf, List.mem_flatten, List.mem_map] at hdoc
  obtain ⟨l, ⟨f, hf, rfl⟩, hdl⟩ := hdoc
  obtain ⟨d0, hd0, rfl⟩ := List.mem_map.mp hdl
  simp only [uploaded_files, file_uploader, List.mem_filter] at hf
  refine ⟨f, hf.1, ?_, rfl⟩
  have h2 := hf.2
  simp only [List.any_cons, List.any_nil, Bool.or_false] at h2
  exact h2

/-- C6 witness: of two offered files, only the .pdf one contributes a session
document, tagged with its name. -/
theorem uploader_pdf_only_witness :
    ∃ f ∈ [(⟨"a.pdf", "x"⟩ : UploadedFile), ⟨"b.txt", "y"⟩],
      ".pdf".data.isSuffixOf f.name.data = true ∧
      (Document.mk "c" (some "a.pdf") none).source = some f.name :=
  uploader_pdf_only [⟨"a.pdf", "x"⟩, ⟨"b.txt", "y"⟩] (fun _ => [⟨"c", none, none⟩])
    ⟨"c", some "a.pdf", none⟩ (by decide)

/-- C7: with a default credential configured the modelled Query Service
returns its result; given the spec's guarantee that the answer text is
non-empty for a valid question, the persistent page renders exactly that
answer text via `st.markdown`. -/
theorem valid_query_answer_rendered (q : String) (r : QueryResult)
    (hq : q ≠ "") (hr : r.result ≠ "") :
    r.result ≠ "" ∧
    UIEvent.markdown r.result ∈ page_persistent_query true q (ask_question false true r) := by
  refine ⟨hr, ?_⟩
  simp [page_persistent_query, ask_question, hq]

/-- C7 witness: a concrete non-empty answer is rendered. -/
theorem valid_query_answer_rendered_witness :
    ("ans" : String) ≠ "" ∧
    UIEvent.markdown "ans" ∈
      page_persistent_query true "q" (ask_question false true ⟨"ans", some []⟩) :=
  valid_query_answer_rendered "q" ⟨"ans", some []⟩ (by decide) (by decide)

/-- C8: each of the three query actions is spinner-scoped with a single
request: the trace is either empty (the action did not fire) or exactly one
spinner-bracketed run whose only Query Service request sits inside the
progress indicator — never a request outside the spinner, never a retry. -/
theorem single_query_in_spinner (pressed : Bool) (q : String)
    (res : Except String QueryResult) :
    spinnerScoped (page_persistent_query pressed q res) ∧
    spinnerScoped (page_ephemeral_query pressed q res) ∧
    spinnerScoped (page_consult_query pressed q res) := by
  refine ⟨?_, ?_, ?_⟩
  · unfold page_persistent_query
    split
    · right
      cases res with
      | ok r =>
        refine ⟨[.success "✅ Réponse :", .markdown r.result,
          .markdown "#### 📄 Sources documentaires utilisées"] ++
          render_persistent_sources r, by simp, ?_⟩
        simp [askCount, List.countP_append, List.countP_cons, isAsk,
          countP_render_persistent]
      | error e =>
        refine ⟨[.error ("❌ Une erreur est survenue : " ++ e), .code (traceback e)],
          by simp, ?_⟩
        simp [askCount, List.countP_cons, isAsk]
    · left; rfl
  · unfold page_ephemeral_query
    split
    · right
      cases res with
      | ok r =>
        refine ⟨[.success "🧠 Réponse :", .markdown r.result] ++
          (render_ephemeral_sources r).1 ++
          (match (render_ephemeral_sources r).2 with
           | none => []
           | some e => [.error ("❌ Erreur pendant l'exécution : " ++ e)]),
          by simp, ?_⟩
        cases h2 : (render_ephemeral_sources r).2 with
        | none =>
          simp [h2, askCount, List.countP_append, List.countP_cons, isAsk,
            countP_render_ephemeral]
        | some e =>
          simp [h2, askCount, List.countP_append, List.countP_cons, isAsk,
            countP_render_ephemeral]
      | error e =>
        refine ⟨[.error ("❌ Erreur pendant l'exécution : " ++ e)], by simp, ?_⟩
        simp [askCount, List.countP_cons, isAsk]
    · left; rfl
  · unfold page_consult_query
    split
    · right
      cases res with
      | ok r =>
        refine ⟨[.success "## 🧠 Réponse", .markdown r.result, .markdown "## 📑 Sources"] ++
          render_consult_sources r, by simp, ?_⟩
        simp [askCount, List.countP_append, List.countP_cons, isAsk,
          countP_render_consult]
      | error e =>
        refine ⟨[.error ("Erreur : " ++ e), .code (traceback e)], by simp, ?_⟩
        simp [askCount, List.countP_cons, isAsk]
    · left; rfl

/-- C9: the two pages gate differently: the RAG Assistant page issues its
query iff the raw question string is non-empty (python truthiness — a
whitespace-only question still queries), while the consultation page issues
its query iff the stripped question is non-empty, i.e. iff some character of
the question is non-whitespace. -/
theorem query_gates_differ (q : String) (res : Except String QueryResult) :
    (askCount (page_persistent_query true q res) = 1 ↔ q ≠ "") ∧
    (askCount (page_consult_query true q res) = 1 ↔
      ∃ c ∈ q.data, c.isWhitespace = false) := by
  rw [askCount_persistent, askCount_consult, ← pyStrip_ne_empty_iff]
  constructor
  · by_cases hq : q = "" <;> simp [hq]
  · by_cases hs : pyStrip q = "" <;> simp [hs]

/-- C9 witness: a whitespace-only question triggers the RAG Assistant query
but not the consultation query. -/
theorem query_gates_differ_witness :
    askCount (page_persistent_query true " " (.error "E")) = 1 ∧
    ¬ askCount (page_consult_query true " " (.error "E")) = 1 :=
  ⟨(query_gates_differ " " (.error "E")).1.mpr (by decide),
   fun h => absurd ((query_gates_differ " " (.error "E")).2.mp h) (by decide)⟩

/-- C10: a result whose source_documents key is absent: the persistent path's
`result.get(...)` treats it exactly like the empty list and renders the
no-sources indicator, while the ephemeral path's strict `result[...]` lookup
raises KeyError after the Sources header. -/
theorem absent_sources_key_handling (a : String) :
    render_persistent_sources ⟨a, none⟩ =
      [.info "Aucune source documentaire n'a été retournée."] ∧
    render_ephemeral_sources ⟨a, none⟩ =
      ([.markdown "📎 **Sources :**"], some "KeyError: source_documents") :=
  ⟨rfl, rfl⟩
